import Mathlib

/-!
A shallow embedding of the solidjs-tutorial repository's demo state and
handlers, together with proofs of the behavioural properties claimed for
them.  Each definition is translated from the demo source file named in
its doc comment; the reactive runtime (solid-js) is external to the
repository, so where a claim speaks about its caching or re-evaluation
semantics those semantics are modelled from the specification's glossary
and marked as such.
-/

namespace SolidTutorial

/-! ## Todo items (src/stores/stores.tsx) -/

/-- The todo item shape used by BadTodoList, StoreTodo, ProduceMutableExample
and CreateMutableExample (stores.tsx lines 25-29). -/
structure TodoItem where
  id : Nat
  text : String
  completed : Bool
  deriving DecidableEq, Repr

/-- The todo item shape of GoodTodoList (stores.tsx lines 97-102): the
`completed` field is held in a nested signal; we record the signal's current
boolean value. -/
structure ReactiveTodoItem where
  id : Nat
  text : String
  completed : Bool
  deriving DecidableEq, Repr

/-- The local state of BadTodoList (stores.tsx lines 32-34): the `todos`
signal together with the module counter `todoId` (initially 0). -/
structure TodoListState where
  todoId : Nat
  todos : List TodoItem
  deriving DecidableEq, Repr

/-- The local state of GoodTodoList (stores.tsx lines 105-107). -/
structure GoodTodoListState where
  todoId : Nat
  todos : List ReactiveTodoItem
  deriving DecidableEq, Repr

/-- Initial state of BadTodoList: `todoId = 0`, `todos = []`. -/
def badTodoInit : TodoListState := { todoId := 0, todos := [] }

/-- Initial state of GoodTodoList: `todoId = 0`, `todos = []`. -/
def goodTodoInit : GoodTodoListState := { todoId := 0, todos := [] }

/-- Initial state of ProduceMutableExample (stores.tsx lines 501-503). -/
def produceTodoInit : TodoListState := { todoId := 0, todos := [] }

/-- addTodo of BadTodoList (stores.tsx lines 36-38):
`setTodos([...todos(), { id: ++todoId, text, completed: false }])`.
The pre-increment updates `todoId` and uses the incremented value as id. -/
def addTodoBad (s : TodoListState) (text : String) : TodoListState :=
  { todoId := s.todoId + 1,
    todos := s.todos ++ [{ id := s.todoId + 1, text := text, completed := false }] }

/-- addTodo of GoodTodoList (stores.tsx lines 115-118): a fresh `completed`
signal is created with value `false` and the item appended with `id: ++todoId`. -/
def addTodoGood (s : GoodTodoListState) (text : String) : GoodTodoListState :=
  { todoId := s.todoId + 1,
    todos := s.todos ++ [{ id := s.todoId + 1, text := text, completed := false }] }

/-- addTodo of ProduceMutableExample (stores.tsx lines 512-518):
`produce` pushes `{ id: ++todoId, text, completed: false }` onto the end. -/
def addTodoProduce (s : TodoListState) (text : String) : TodoListState :=
  { todoId := s.todoId + 1,
    todos := s.todos ++ [{ id := s.todoId + 1, text := text, completed := false }] }

/-- toggleTodo of BadTodoList (stores.tsx lines 45-49): map over the list,
keeping every item whose id differs and flipping `completed` on the match. -/
def toggleTodoBad (i : Nat) (todos : List TodoItem) : List TodoItem :=
  todos.map fun todo =>
    if todo.id ≠ i then todo else { todo with completed := !todo.completed }

/-- toggleTodo of GoodTodoList (stores.tsx lines 125-128):
`todos().find((t) => t.id === id)` and, if found, that item's completed
signal is flipped in place; nothing happens when the find fails.  The
embedding updates the first item whose id matches and keeps the rest. -/
def toggleTodoGood (i : Nat) : List ReactiveTodoItem → List ReactiveTodoItem
  | [] => []
  | t :: ts =>
      if t.id = i then { t with completed := !t.completed } :: ts
      else t :: toggleTodoGood i ts

/-- toggleTodo of CreateMutableExample (stores.tsx lines 592-596):
`todos.filter(todo => todo.id === id).forEach((todo) => todo.completed = !todo.completed)`.
The filter yields references into the list, so every matching item is flipped
in place and every other item is untouched. -/
def toggleTodoMutable (i : Nat) (todos : List TodoItem) : List TodoItem :=
  todos.map fun todo =>
    if todo.id = i then { todo with completed := !todo.completed } else todo

/-! ## The animal-list store (src/stores/stores.tsx, BasicPathStoreUpdatesExample) -/

/-- One entry of the `list` field of the animalList store.  The optional
`seen` field models a key that path updates may add (absent by default). -/
structure Animal where
  id : Nat
  title : String
  seen : Option Bool
  deriving DecidableEq, Repr

/-- The animalList store value (stores.tsx lines 305-311). -/
structure AnimalList where
  counter : Nat
  list : List Animal
  deriving DecidableEq, Repr

/-- The default animalList state:
`{ counter: 2, list: [{id: 23, title: 'Birds'}, {id: 27, title: 'Fish'}] }`. -/
def animalListInit : AnimalList :=
  { counter := 2,
    list := [{ id := 23, title := "Birds", seen := none },
             { id := 27, title := "Fish", seen := none }] }

/-- Replace the element at position `i`, when it exists, by the result of `f`;
the rest of the list is untouched.  Used to embed a path update that selects
a list index. -/
def modifyAt (i : Nat) (f : Animal → Animal) : List Animal → List Animal
  | [] => []
  | a :: as =>
      match i with
      | 0 => f a :: as
      | j + 1 => a :: modifyAt j f as

/-- First setter call of addAndSeeMarsupials (stores.tsx line 331):
`setAnimalList('counter', (currentCount) => currentCount + 1)`. -/
def incrementAnimalCounter (s : AnimalList) : AnimalList :=
  { s with counter := s.counter + 1 }

/-- Second setter call (stores.tsx line 346):
`setAnimalList('list', (list) => [...list, { id: 43, title: 'Marsupials' }])`:
the previous array is fully replaced by a copy with one appended element. -/
def appendMarsupials (s : AnimalList) : AnimalList :=
  { s with list := s.list ++ [{ id := 43, title := "Marsupials", seen := none }] }

/-- Third setter call (stores.tsx line 361):
`setAnimalList('list', 2, 'seen', true)`: go to index 2 of `list` and set the
`seen` key to true. -/
def seeMarsupials (s : AnimalList) : AnimalList :=
  { s with list := modifyAt 2 (fun a => { a with seen := some true }) s.list }

/-- addAndSeeMarsupials (stores.tsx lines 329-374): the three path-based
setter calls run in order. -/
def addAndSeeMarsupials (s : AnimalList) : AnimalList :=
  seeMarsupials (appendMarsupials (incrementAnimalCounter s))

/-! ## Counters (signals-tutorial, effects-tutorial, data-flow) -/

/-- The SignalTutorial interval handler (signals-tutorial.tsx):
`setInterval(() => setCount(count() + 1), 1000)`. -/
def signalTutorialTick (count : Int) : Int := count + 1

/-- The EffectsTutorial button handler (effects-tutorial.tsx line 25):
`onClick={() => setCount(count() + 1)}`. -/
def effectsTutorialClick (count : Int) : Int := count + 1

/-- increment of CounterProvider (data-flow.tsx line 54): `setCount(c => c + 1)`. -/
def counterIncrement (c : Int) : Int := c + 1

/-- decrement of CounterProvider (data-flow.tsx line 55): `setCount(c => c - 1)`. -/
def counterDecrement (c : Int) : Int := c - 1

/-! ## Derived signals (src/derived-signals/derived-signals.tsx) -/

/-- doubleCount (derived-signals.tsx line 33): `() => count() * 2`, a plain
function of the current value of the count signal, holding no state of its own. -/
def doubleCount (count : Int) : Int := count * 2

/-- Modelled from the spec: the re-evaluation semantics of a derived value
belongs to solid-js, which is external to the repository.  Per the glossary,
a derived value "re-evaluates whenever a dependency changes, without itself
storing state".  The state records the count signal, the displayed value
(always recomputed from the current count) and how many times doubleCount
has been evaluated; the initial render evaluates it once. -/
structure DerivedState where
  count : Int
  display : Int
  evals : Nat
  deriving DecidableEq, Repr

/-- Initial render of DerivedSignals: count starts at 0 and the view shows
`doubleCount()`, evaluating it once. -/
def derivedInit : DerivedState :=
  { count := 0, display := doubleCount 0, evals := 1 }

/-- One interval tick of DerivedSignals (derived-signals.tsx line 36):
`setCount(count() + 1)` changes the tracked dependency, so doubleCount
re-evaluates on the new count. -/
def derivedTick (s : DerivedState) : DerivedState :=
  { count := s.count + 1, display := doubleCount (s.count + 1), evals := s.evals + 1 }

/-- The DerivedSignals demo state after `n` interval ticks. -/
def derivedRun (n : Nat) : DerivedState := derivedTick^[n] derivedInit

/-! ## Memos (src/memos/memos.tsx) -/

/-- fibonacci (memos.tsx lines 15-19): returns 1 for `num <= 1`, otherwise
`fibonacci(num - 1) + fibonacci(num - 2)`. -/
def fibonacci : Nat → Nat
  | 0 => 1
  | 1 => 1
  | n + 2 => fibonacci (n + 1) + fibonacci n

/-- The observable events of the Memos demo: a click of the button
(`setCount(count() + 1)`, memos.tsx line 40) or a read of `fib()`
(the JSX reads it 50 times per render, lines 41-50). -/
inductive MemoEvent where
  | click
  | readFib
  deriving DecidableEq, Repr

/-- Modelled from the spec: the caching runtime of `createMemo` belongs to
solid-js, which is external to the repository.  Per the glossary, a memoized
computation is "cached and only recomputed when a tracked dependency actually
changes, regardless of how many times it is read".  The state holds the
count signal, the cached result of the memoized function
(`fibonacci(count())`, memos.tsx lines 29-32) and the number of times that
underlying function has been evaluated. -/
structure MemoState where
  count : Nat
  cache : Nat
  fibEvals : Nat
  deriving DecidableEq, Repr

/-- Creation of the Memos demo: count starts at 10 (memos.tsx line 23) and
the memo evaluates its function once to fill the cache. -/
def memoInit : MemoState :=
  { count := 10, cache := fibonacci 10, fibEvals := 1 }

/-- One step of the Memos demo: a click changes count, so the memo recomputes
its cache (one evaluation); a read of `fib()` returns the cache and leaves
the state untouched. -/
def memoStep (s : MemoState) : MemoEvent → MemoState
  | MemoEvent.click =>
      { count := s.count + 1, cache := fibonacci (s.count + 1), fibEvals := s.fibEvals + 1 }
  | MemoEvent.readFib => s

/-- The Memos demo state after a sequence of events. -/
def memoRun (es : List MemoEvent) : MemoState := es.foldl memoStep memoInit

/-- The value a read of `fib()` returns: the cached value. -/
def fibRead (s : MemoState) : Nat := s.cache

/-- The number of dependency changes in an event sequence (each click
changes count, since `n + 1 ≠ n`). -/
def countClicks (es : List MemoEvent) : Nat :=
  (es.filter fun e => e = MemoEvent.click).length

/-- A render of the Memos demo reads `fib()` 50 times (memos.tsx lines 41-50). -/
def renderReads : List MemoEvent := List.replicate 50 MemoEvent.readFib

/-! ## Control flow (src/control-flow/control-flow.tsx) -/

/-- Rendered output; enough structure for the error-boundary example. -/
inductive Jsx where
  | text : String → Jsx
  deriving DecidableEq, Repr

/-- Broken (control-flow.tsx lines 226-229): throws `Error("Oh No")` on every
invocation; the JSX on the line after the throw is dead code. -/
def Broken (_ : Unit) : Except String Jsx := do
  throw ("Oh No")
  return Jsx.text ("Never Getting Here")

/-- Modelled from the spec: ErrorBoundary is a solid-js component, external
to the repository.  Per the spec it is "a framework-provided boundary" that
catches a deliberately thrown error: when the child renders without error
its output is kept, otherwise the `fallback` applied to the error value is
rendered in its place. -/
def errorBoundary (fallback : String → Jsx) (child : Unit → Except String Jsx) : Jsx :=
  match child () with
  | Except.ok jsx => jsx
  | Except.error e => fallback e

/-- ErrorExample (control-flow.tsx lines 231-249): a `Before` div, the
ErrorBoundary with `fallback={err => err}` wrapping `<Broken />`, and an
`After` div. -/
def errorExampleRender (_ : Unit) : List Jsx :=
  [Jsx.text ("Before"),
   errorBoundary (fun err => Jsx.text err) Broken,
   Jsx.text ("After")]

/-! ## The top-level switchboard (src/App.tsx, two revisions) -/

/-- The tutorial demos the switchboard can mount. -/
inductive Demo where
  | signals
  | effects
  | derivedSignals
  | memos
  | controlFlow
  | lifecycle
  | bindings
  | props
  | stores
  | dataFlow
  deriving DecidableEq, Repr

/-- The demos mounted by App in src/App.tsx (lines 13-70): every return
statement is commented out except `return <BindingsTutorial />` (line 46). -/
def appMountedBindings : List Demo := [Demo.bindings]

/-- The demos mounted by App in the later revision of App.tsx (lines
114-186): every return statement is commented out except
`return <DataFlowTutorial />` (line 162). -/
def appMountedDataFlow : List Demo := [Demo.dataFlow]

/-! ## Module-level state flow between files -/

/-- The source files that hold or import module-level state. -/
inductive SrcModule where
  | app
  | signals
  | effects
  | derivedSignals
  | memos
  | controlFlow
  | lifecycle
  | bindings
  | props
  | stores
  | dataFlow
  | counter
  | reduxStore
  deriving DecidableEq, Repr

/-- The pairs (exporter, consumer) along which module-level mutable state
flows between files, read off the import statements of the source:
data-flow.tsx line 4 imports `reduxStore` from './redux-store' (the mock
Redux store, a mutable container) and line 5 imports `externalCounter` from
'./counter' ("a simple counter signal that we export", data-flow.tsx lines
224-227, consumed by ExternalSignalExample at lines 236-244).  No other file
imports state from another file: App.tsx imports only components, and the
module-level `nextTodoId` of data-flow.tsx (line 126) is not exported. -/
def stateImports : List (SrcModule × SrcModule) :=
  [(SrcModule.reduxStore, SrcModule.dataFlow),
   (SrcModule.counter, SrcModule.dataFlow)]

/-- The files making up the data-flow demo: the demo itself and its two
helper modules. -/
def dataFlowDemoModules : List SrcModule :=
  [SrcModule.dataFlow, SrcModule.counter, SrcModule.reduxStore]

/-- A state-import edge lies within the data-flow demo. -/
def withinDataFlowDemo (p : SrcModule × SrcModule) : Bool :=
  dataFlowDemoModules.contains p.1 && dataFlowDemoModules.contains p.2

/-! ## Mock external services (src/async/async.tsx, src/data-flow/data-flow.tsx) -/

/-- What a JavaScript function returns, as far as the stated interface
contracts go: a promise or a plain value. -/
inductive JsReturn where
  | promise
  | plain
  deriving DecidableEq, Repr

/-- fetchUser (async.tsx lines 99-100) is an `async` arrow function, so every
call returns a promise. -/
def fetchUserReturn : JsReturn := JsReturn.promise

/-- createDelay (async.tsx lines 293-298) returns `new Promise<number>(...)`. -/
def createDelayReturn : JsReturn := JsReturn.promise

/-- The methods of the mock Redux-like store. -/
inductive StoreMethod where
  | get
  | getState
  | subscribe
  | dispatch
  deriving DecidableEq, Repr

/-- The store methods called by useRedux (data-flow.tsx lines 134-161):
`store.getState()` at line 135 and again in the subscription callback at
line 148, and `store.subscribe(...)` at line 136. -/
def useReduxStoreCalls : List StoreMethod :=
  [StoreMethod.getState, StoreMethod.subscribe, StoreMethod.getState]

/-- The store methods called by mapActions (data-flow.tsx lines 167-173),
invoked from useRedux: `store.dispatch(...)` at line 170. -/
def mapActionsStoreCalls : List StoreMethod :=
  [StoreMethod.dispatch]

/-- Every store method the repository calls on the mock Redux-like store. -/
def storeMethodsUsed : List StoreMethod := useReduxStoreCalls ++ mapActionsStoreCalls

/-- The spec's claimed store interface: "exposes get/subscribe/dispatch". -/
def specStoreInterface : List StoreMethod :=
  [StoreMethod.get, StoreMethod.subscribe, StoreMethod.dispatch]

/-- The store interface the repository actually relies on:
getState/subscribe/dispatch. -/
def actualStoreInterface : List StoreMethod :=
  [StoreMethod.getState, StoreMethod.subscribe, StoreMethod.dispatch]

end SolidTutorial

namespace SolidTutorial

/-! ## Theorems -/

/-- C10: from the default animalList state, one call of addAndSeeMarsupials
produces exactly `{counter: 3, list: [Birds, Fish, Marsupials(seen)]}`: the
counter is incremented by one, the first two list elements are unchanged, and
the `seen` key is added only to the appended index 2. -/
theorem claim_C10_addAndSeeMarsupials :
    addAndSeeMarsupials animalListInit =
      { counter := 3,
        list := [{ id := 23, title := "Birds", seen := none },
                 { id := 27, title := "Fish", seen := none },
                 { id := 43, title := "Marsupials", seen := some true }] } := by
  rfl

/-- C3: every counter steps by exactly one: the SignalTutorial interval and
the EffectsTutorial click replace `c` by `c + 1` (so after `n` events the
count has grown by `n`), and the CounterProvider increment and decrement
replace `c` by `c + 1` and `c - 1`. -/
theorem claim_C3_counters_step_by_one (c : Int) (n : Nat) :
    signalTutorialTick^[n] c = c + n
    ∧ effectsTutorialClick^[n] c = c + n
    ∧ counterIncrement c = c + 1
    ∧ counterDecrement c = c - 1 := by
  refine ⟨?_, ?_, rfl, rfl⟩ <;>
  · induction n with
    | zero => simp
    | succ k ih =>
        rw [Function.iterate_succ_apply', ih]
        simp [signalTutorialTick, effectsTutorialClick]
        ring

/-- Helper: the ids produced by folding addTodoBad over a list of texts are
the old ids followed by the consecutive block starting at `todoId + 1`. -/
theorem addTodoBad_run_ids (texts : List String) (s : TodoListState) :
    (texts.foldl addTodoBad s).todos.map TodoItem.id
      = s.todos.map TodoItem.id ++ List.range' (s.todoId + 1) texts.length := by
  induction texts generalizing s with
  | nil => simp
  | cons t ts ih =>
      rw [List.foldl_cons, ih]
      simp [addTodoBad, List.range'_succ]

/-- Helper: same for addTodoGood. -/
theorem addTodoGood_run_ids (texts : List String) (s : GoodTodoListState) :
    (texts.foldl addTodoGood s).todos.map ReactiveTodoItem.id
      = s.todos.map ReactiveTodoItem.id ++ List.range' (s.todoId + 1) texts.length := by
  induction texts generalizing s with
  | nil => simp
  | cons t ts ih =>
      rw [List.foldl_cons, ih]
      simp [addTodoGood, List.range'_succ]

/-- Helper: same for addTodoProduce. -/
theorem addTodoProduce_run_ids (texts : List String) (s : TodoListState) :
    (texts.foldl addTodoProduce s).todos.map TodoItem.id
      = s.todos.map TodoItem.id ++ List.range' (s.todoId + 1) texts.length := by
  induction texts generalizing s with
  | nil => simp
  | cons t ts ih =>
      rw [List.foldl_cons, ih]
      simp [addTodoProduce, List.range'_succ]

/-- Helper: consecutive natural numbers are strictly increasing. -/
theorem chain'_lt_range' (n : Nat) : ∀ s : Nat, List.Chain' (· < ·) (List.range' s n) := by
  induction n with
  | zero => intro s; simp
  | succ k ih =>
      intro s
      rw [List.range'_succ]
      rw [List.chain'_cons']
      refine ⟨?_, ih (s + 1)⟩
      intro b hb
      cases k with
      | zero => simp at hb
      | succ m =>
          rw [List.range'_succ] at hb
          simp at hb
          omega

/-- Helper: folding addTodoBad keeps every item's completed flag false and
its id nonzero. -/
theorem addTodoBad_run_flags (texts : List String) (s : TodoListState)
    (h : s.todos.all (fun x => !x.completed && x.id != 0) = true) :
    (texts.foldl addTodoBad s).todos.all (fun x => !x.completed && x.id != 0) = true := by
  induction texts generalizing s with
  | nil => exact h
  | cons t ts ih =>
      rw [List.foldl_cons]
      refine ih _ ?_
      simp_all [addTodoBad]

/-- C9: in each todo-list demo, addTodo appends exactly one item to the end
with `completed = false` and id `todoId + 1`; from the initial state (todoId
starts at 0, the pre-increment yields ids 1, 2, ...) any sequence of addTodo
calls yields exactly the ids 1..n in order, so ids are positive, unique, and
strictly increasing in insertion order. -/
theorem claim_C9_addTodo_ids (texts : List String) (s : TodoListState)
    (g : GoodTodoListState) (t : String) :
    (addTodoBad s t).todos
        = s.todos ++ [{ id := s.todoId + 1, text := t, completed := false }]
    ∧ (addTodoProduce s t).todos
        = s.todos ++ [{ id := s.todoId + 1, text := t, completed := false }]
    ∧ (addTodoGood g t).todos
        = g.todos ++ [{ id := g.todoId + 1, text := t, completed := false }]
    ∧ (texts.foldl addTodoBad badTodoInit).todos.map TodoItem.id
        = List.range' 1 texts.length
    ∧ (texts.foldl addTodoGood goodTodoInit).todos.map ReactiveTodoItem.id
        = List.range' 1 texts.length
    ∧ (texts.foldl addTodoProduce produceTodoInit).todos.map TodoItem.id
        = List.range' 1 texts.length
    ∧ List.Pairwise (· < ·) ((texts.foldl addTodoBad badTodoInit).todos.map TodoItem.id)
    ∧ (texts.foldl addTodoBad badTodoInit).todos.all
        (fun x => !x.completed && x.id != 0) = true := by
  have hids : (texts.foldl addTodoBad badTodoInit).todos.map TodoItem.id
      = List.range' 1 texts.length := by
    rw [addTodoBad_run_ids]; simp [badTodoInit]
  refine ⟨rfl, rfl, rfl, hids, ?_, ?_, ?_, ?_⟩
  · rw [addTodoGood_run_ids]; simp [goodTodoInit]
  · rw [addTodoProduce_run_ids]; simp [produceTodoInit]
  · rw [hids]
    exact List.chain'_iff_pairwise.mp (chain'_lt_range' texts.length 1)
  · exact addTodoBad_run_flags texts badTodoInit rfl

/-- Helper: BadTodoList toggleTodo leaves a list alone when no id matches. -/
theorem toggleTodoBad_absent (i : Nat) :
    ∀ todos : List TodoItem, (∀ t ∈ todos, t.id ≠ i) → toggleTodoBad i todos = todos
  | [], _ => rfl
  | t :: ts, h => by
      have ht : t.id ≠ i := h t (by simp)
      have ih := toggleTodoBad_absent i ts (fun x hx => h x (by simp [hx]))
      simp only [toggleTodoBad, List.map_cons] at ih ⊢
      rw [if_pos ht, ih]

/-- Helper: GoodTodoList toggleTodo leaves a list alone when no id matches. -/
theorem toggleTodoGood_absent (i : Nat) :
    ∀ todos : List ReactiveTodoItem, (∀ t ∈ todos, t.id ≠ i) → toggleTodoGood i todos = todos
  | [], _ => rfl
  | t :: ts, h => by
      have ht : t.id ≠ i := h t (by simp)
      have ih := toggleTodoGood_absent i ts (fun x hx => h x (by simp [hx]))
      simp only [toggleTodoGood]
      rw [if_neg ht, ih]

/-- Helper: CreateMutableExample toggleTodo leaves a list alone when no id
matches. -/
theorem toggleTodoMutable_absent (i : Nat) :
    ∀ todos : List TodoItem, (∀ t ∈ todos, t.id ≠ i) → toggleTodoMutable i todos = todos
  | [], _ => rfl
  | t :: ts, h => by
      have ht : t.id ≠ i := h t (by simp)
      have ih := toggleTodoMutable_absent i ts (fun x hx => h x (by simp [hx]))
      simp only [toggleTodoMutable, List.map_cons] at ih ⊢
      rw [if_neg ht, ih]

/-- C8: in BadTodoList, GoodTodoList and CreateMutableExample, calling
toggleTodo with an id that matches no todo in the current list leaves the
list completely unchanged. -/
theorem claim_C8_toggle_absent_id (i : Nat) (bs : List TodoItem)
    (gs : List ReactiveTodoItem)
    (hb : ∀ t ∈ bs, t.id ≠ i) (hg : ∀ t ∈ gs, t.id ≠ i) :
    toggleTodoBad i bs = bs
    ∧ toggleTodoGood i gs = gs
    ∧ toggleTodoMutable i bs = bs :=
  ⟨toggleTodoBad_absent i bs hb, toggleTodoGood_absent i gs hg,
   toggleTodoMutable_absent i bs hb⟩

/-- Witness for C8 at a concrete list and a fresh id. -/
theorem claim_C8_witness :
    toggleTodoBad 2 [{ id := 1, text := "a", completed := false }]
        = [{ id := 1, text := "a", completed := false }]
    ∧ toggleTodoGood 2 [{ id := 1, text := "a", completed := true }]
        = [{ id := 1, text := "a", completed := true }]
    ∧ toggleTodoMutable 2 [{ id := 1, text := "a", completed := false }]
        = [{ id := 1, text := "a", completed := false }] :=
  claim_C8_toggle_absent_id 2
    [{ id := 1, text := "a", completed := false }]
    [{ id := 1, text := "a", completed := true }]
    (by decide) (by decide)

/-- Helper: the memo cache always holds `fibonacci` of the current count. -/
theorem memoRun_cache_inv (es : List MemoEvent) (s : MemoState)
    (h : s.cache = fibonacci s.count) :
    (es.foldl memoStep s).cache = fibonacci (es.foldl memoStep s).count := by
  induction es generalizing s with
  | nil => exact h
  | cons e es ih =>
      rw [List.foldl_cons]
      refine ih _ ?_
      cases e <;> simp [memoStep, h]

/-- Helper: the number of evaluations grows by exactly the number of clicks,
independently of the reads in the trace. -/
theorem memoRun_evals (es : List MemoEvent) (s : MemoState) :
    (es.foldl memoStep s).fibEvals = s.fibEvals + countClicks es := by
  induction es generalizing s with
  | nil => simp [countClicks]
  | cons e es ih =>
      rw [List.foldl_cons, ih]
      cases e
      · simp [memoStep, countClicks, List.filter_cons]
        omega
      · simp [memoStep, countClicks, List.filter_cons]

/-- Helper: any number of consecutive reads of `fib()` leaves the demo state
untouched. -/
theorem memoRun_reads_noop (n : Nat) (s : MemoState) :
    (List.replicate n MemoEvent.readFib).foldl memoStep s = s := by
  induction n generalizing s with
  | zero => rfl
  | succ k ih =>
      rw [List.replicate_succ, List.foldl_cons]
      exact ih s

/-- C1: over any sequence of clicks and reads, the memoized fib evaluates
its underlying function (`fibonacci(count())`) exactly once at creation plus
once per change of the count dependency — reads never evaluate it (a read
leaves the state untouched, and a full render's 50 reads leave the state,
hence the evaluation count, unchanged) — and every read returns the cached
value `fibonacci(count)`. -/
theorem claim_C1_memo_eval_once_per_change (es : List MemoEvent) (s : MemoState) :
    (memoRun es).fibEvals = 1 + countClicks es
    ∧ fibRead (memoRun es) = fibonacci (memoRun es).count
    ∧ memoStep s MemoEvent.readFib = s
    ∧ countClicks renderReads = 0
    ∧ memoRun (es ++ renderReads) = memoRun es := by
  refine ⟨?_, ?_, rfl, by decide, ?_⟩
  · exact memoRun_evals es memoInit
  · exact memoRun_cache_inv es memoInit rfl
  · show (es ++ renderReads).foldl memoStep memoInit = memoRun es
    rw [List.foldl_append]
    exact memoRun_reads_noop 50 (es.foldl memoStep memoInit)

/-- Helper: shape of the DerivedSignals state after `n` ticks. -/
theorem derivedRun_spec (n : Nat) :
    (derivedRun n).count = n
    ∧ (derivedRun n).display = doubleCount ((derivedRun n).count)
    ∧ (derivedRun n).evals = n + 1 := by
  induction n with
  | zero => exact ⟨rfl, rfl, rfl⟩
  | succ k ih =>
      obtain ⟨h1, h2, h3⟩ := ih
      have hs : derivedRun (k + 1) = derivedTick (derivedRun k) := by
        rw [derivedRun, derivedRun, Function.iterate_succ_apply']
      rw [hs]
      refine ⟨?_, rfl, ?_⟩
      · simp [derivedTick, h1]
      · simp [derivedTick, h3]

/-- C2: doubleCount stores no state of its own — it is a pure function of the
current count, returning exactly `2 * n` for every value `n` of the count
signal — and along the demo's tick trace it is re-evaluated exactly once per
change of its tracked dependency (the initial render plus one evaluation per
tick), the display always being `doubleCount` of the current count. -/
theorem claim_C2_doubleCount_derived (c : Int) (n : Nat) :
    doubleCount c = 2 * c
    ∧ (derivedRun n).count = n
    ∧ (derivedRun n).display = doubleCount ((derivedRun n).count)
    ∧ (derivedRun n).display = 2 * (derivedRun n).count
    ∧ (derivedRun n).evals = n + 1 := by
  obtain ⟨h1, h2, h3⟩ := derivedRun_spec n
  refine ⟨by rw [doubleCount]; ring, h1, h2, ?_, h3⟩
  rw [h2, doubleCount]; ring

/-- C4: Broken throws `Error("Oh No")` on every invocation and never returns
its trailing JSX; rendered inside ErrorExample's ErrorBoundary the error is
caught, the fallback renders the error value in Broken's place, and the
sibling `Before` and `After` elements still render. -/
theorem claim_C4_broken_caught (u : Unit) (j : Jsx) :
    Broken u = Except.error ("Oh No")
    ∧ Broken u ≠ Except.ok j
    ∧ errorExampleRender u = [Jsx.text ("Before"), Jsx.text ("Oh No"), Jsx.text ("After")] := by
  refine ⟨rfl, ?_, rfl⟩
  rw [show Broken u = Except.error ("Oh No") from rfl]
  simp

/-- C5: each revision of the switchboard App mounts exactly one demo: one
tutorial component is returned, never zero and never more than one. -/
theorem claim_C5_app_mounts_one_demo :
    appMountedBindings.length = 1 ∧ appMountedDataFlow.length = 1 := by
  decide

/-- C6 counterexample: module-level mutable state is exported from one file
and consumed in another — the counter signal of counter.tsx is consumed by
data-flow.tsx (and so is the mock store of redux-store.tsx), so the claim
that no such flow exists fails. -/
theorem claim_C6_counterexample :
    (SrcModule.counter, SrcModule.dataFlow) ∈ stateImports
    ∧ SrcModule.counter ≠ SrcModule.dataFlow
    ∧ stateImports ≠ [] := by
  decide

/-- C6 amended: no state flows between two distinct demos — every
module-level state import lies entirely within the single data-flow demo
(its helper modules counter.tsx and redux-store.tsx feeding data-flow.tsx). -/
theorem claim_C6_state_stays_within_demo :
    stateImports.all withinDataFlowDemo = true := by
  decide

/-- C7 counterexample: the repository calls `store.getState()`, and
`getState` is not among the spec's claimed interface get/subscribe/dispatch,
so that claimed interface is not the whole interface relied on. -/
theorem claim_C7_counterexample :
    StoreMethod.getState ∈ storeMethodsUsed
    ∧ StoreMethod.getState ∉ specStoreInterface
    ∧ storeMethodsUsed.all (fun m => specStoreInterface.contains m) = false := by
  decide

/-- C7 amended: every fetcher handed to createResource returns a promise,
and every method the repository calls on the mock Redux-like store is one of
getState/subscribe/dispatch (`get` itself is never called). -/
theorem claim_C7_interface_contracts :
    fetchUserReturn = JsReturn.promise
    ∧ createDelayReturn = JsReturn.promise
    ∧ storeMethodsUsed.all (fun m => actualStoreInterface.contains m) = true
    ∧ StoreMethod.get ∉ storeMethodsUsed := by
  decide

end SolidTutorial
